import Mathlib

/-!
A shallow embedding of the learning/optimization engine of the wnbHack
repository (src/main.py, src/optimizer.py, and the vector search of
src/voice-module/app/services/redis_service.py), with theorems checking
the repository's specification against it.

External collaborators (the Gemini language-model gateway, the embedding
gateway and the weave evaluation harness) are modelled as inputs: each
call site receives the already-parsed reply of the collaborator as an
argument, with `Option.none` standing for a failed call or an unparsable
reply.  The Redis key space touched by the engine is modelled as an
explicit `Store` record: the string-valued `prompt:*` keys, the
`test_cases:list` list, and the `skill:{hash}` hashes.
-/

namespace WnbHack

/-- One `{input, target}` pair of the test-case corpus (`test_cases:list`). -/
structure TestCase where
  input : String
  target : String
deriving DecidableEq

/-- One stored skill hash (`skill:{hash}`): trigger text, rebuttal text and
the embedding vector, as written by `store_lesson_in_redis`. -/
structure Skill where
  trigger : String
  rebuttal : String
  vector : List ℚ
deriving DecidableEq

/-- The Redis key space used by src/main.py and src/optimizer.py. -/
structure Store where
  prompts : List (String × String)
  testCases : List TestCase
  skills : List (Int × Skill)
deriving DecidableEq

/-- `r.get key` over the modelled `prompt:*` key space (optimizer.py connects
with `decode_responses=True`, so values are strings). -/
def kvGet (l : List (String × String)) (k : String) : Option String :=
  (l.find? (fun p => p.fst == k)).map (fun p => p.snd)

/-- `r.set key v`: the new pair shadows any older pair with the same key. -/
def kvSet (l : List (String × String)) (k v : String) : List (String × String) :=
  (k, v) :: l

/-- Python truthiness of an optional string reply: `None` and `""` are falsy,
every other string is kept. -/
def truthy : Option String → Option String
  | some s => if s = "" then none else some s
  | none => none

/-- `hset` on a `skill:{hash}` key: the new record shadows any older record
under the same fingerprint (last write wins). -/
def skillSet (l : List (Int × Skill)) (k : Int) (s : Skill) : List (Int × Skill) :=
  (k, s) :: l

/-- `hget f"skill:{h}" "rebuttal"` as seen through main.py's client. -/
def skillGetRebuttal (l : List (Int × Skill)) (k : Int) : Option Skill :=
  (l.find? (fun p => p.fst == k)).map (fun p => p.snd)

/-- A Python runtime value as far as the grading comparison needs it: main.py
connects with `decode_responses=False`, so `r.hget` yields `None` or a bytes
object, while the extracted rebuttal is a str. -/
inductive PyVal where
  | pynone
  | pystr (s : String)
  | pybytes (s : String)
deriving DecidableEq

/-- Python `==` between the values above: `str == bytes` is `False` in
Python 3, and `str == None` is `False`. -/
def pyEq : PyVal → PyVal → Bool
  | PyVal.pystr a, PyVal.pystr b => a == b
  | PyVal.pybytes a, PyVal.pybytes b => a == b
  | PyVal.pynone, PyVal.pynone => true
  | _, _ => false

/-- The value main.py's `r.hget(f"skill:{hash(objection)}", "rebuttal")`
returns: `None` when the hash is absent, otherwise the stored rebuttal as a
bytes object (the client does not decode replies). -/
def hgetRebuttalPy (l : List (Int × Skill)) (k : Int) : PyVal :=
  match skillGetRebuttal l k with
  | some s => PyVal.pybytes s.rebuttal
  | none => PyVal.pynone

/-- Scenario B's grading expression in `process_call_outcome`:
`1.0 if analysis['rebuttal'] == known_best else 0.5`. -/
def grading_score (pyHash : String → Int) (st : Store) (objection rebuttal : String) : ℚ :=
  if pyEq (PyVal.pystr rebuttal) (hgetRebuttalPy st.skills (pyHash objection)) then 1 else 0.5

/-- The parsed JSON reply of the outcome-classification call, as far as
`determine_call_outcome` reads it: each requested field may be absent. -/
structure OutcomeJson where
  outcome : Option String
  confidence : Option ℚ
  reason : Option String

/-- src/main.py `determine_call_outcome`: the gateway reply is `none` when
`json.loads` raises (the bare `except` then returns the default), otherwise
the parsed object, whose `outcome` field defaults to `"LOST_DEAL"`. -/
def determine_call_outcome (resp : Option OutcomeJson) : String :=
  match resp with
  | none => "LOST_DEAL"
  | some j => j.outcome.getD "LOST_DEAL"

/-- The parsed JSON reply of the objection/rebuttal extraction call
(`{objection, rebuttal, quality_score}`). -/
structure Analysis where
  objection : String
  rebuttal : String
  quality_score : ℚ
deriving DecidableEq

/-- The outcome `process_call_outcome` works with: the `outcome` argument
when one is passed, otherwise the classifier's verdict. -/
def resolved_outcome (outcome? : Option String) (resp : Option OutcomeJson) : String :=
  match outcome? with
  | some o => o
  | none => determine_call_outcome resp

/-- src/main.py `store_lesson_in_redis`: `hset` of the skill hash keyed by
`hash(analysis['objection'])`, holding trigger, rebuttal and the embedding
returned by the embedding gateway. -/
def store_lesson_in_redis (pyHash : String → Int) (st : Store) (a : Analysis)
    (embedVec : List ℚ) : Store :=
  let sk : Skill := { trigger := a.objection, rebuttal := a.rebuttal, vector := embedVec }
  { st with skills := skillSet st.skills (pyHash a.objection) sk }

/-- src/optimizer.py `add_test_case_from_lesson`: `rpush` of the new pair
onto `test_cases:list`. -/
def add_test_case_from_lesson (st : Store) (objection rebuttal : String) : Store :=
  { st with testCases := st.testCases ++ [{ input := objection, target := rebuttal }] }

/-- The three default test cases of `initialize_default_test_cases`. -/
def default_test_cases : List TestCase :=
  [ { input := "Hello, who are you?", target := "I am a sales representative" },
    { input := "It is too expensive.", target := "Value proposition and ROI" },
    { input := "I need to think about it.", target := "Address hesitation with urgency" } ]

/-- Step 1 of src/optimizer.py `optimize_and_verify`: the current prompt it
hands to the mutation call.  `r.get` of the exact segment key, and when that
is falsy, `r.get("prompt:base") or "You are a helpful sales agent."`. -/
def fetch_current_prompt (st : Store) (segment_key : String) : String :=
  match truthy (kvGet st.prompts ("prompt:segment:" ++ segment_key)) with
  | some p => p
  | none =>
    match truthy (kvGet st.prompts "prompt:base") with
    | some p => p
    | none => "You are a helpful sales agent."

/-- src/optimizer.py `get_prompt_for_segment`: exact `country:industry` key,
then the industry-only wildcard key, then the base key, then the hardcoded
default; a stored value is used only when truthy. -/
def get_prompt_for_segment (st : Store) (country industry : String) : String :=
  match truthy (kvGet st.prompts ("prompt:segment:" ++ (country ++ ":" ++ industry))) with
  | some p => p
  | none =>
    match truthy (kvGet st.prompts ("prompt:segment:*:" ++ industry)) with
    | some p => p
    | none =>
      match truthy (kvGet st.prompts "prompt:base") with
      | some p => p
      | none => "You are a helpful sales agent."

/-- src/optimizer.py `optimize_and_verify`.  The two language-model
interactions are inputs: `mutResp` maps the current prompt embedded in the
mutation instructions to the gateway's candidate prompt (`none` = the call
raised), and `evalResp` maps the candidate prompt to the outcome of the
weave evaluation (`none` = the evaluation raised; `some m` = it finished,
with `m` the `overall_score`/`mean` entry of the scorer results, absent
fields defaulting to `0.0`).  The returned pair is the key space after the
run and either the candidate prompt or the propagated exception. -/
def optimize_and_verify (segment_key : String)
    (mutResp : String → Option String) (evalResp : String → Option (Option ℚ))
    (st : Store) : Store × Except Unit String :=
  let current_prompt := fetch_current_prompt st segment_key
  match mutResp current_prompt with
  | none => (st, Except.error ())
  | some candidate_prompt =>
    let st1 := if st.testCases = [] then { st with testCases := default_test_cases } else st
    match evalResp candidate_prompt with
    | none => (st1, Except.error ())
    | some scorer_mean =>
      let avg_score := scorer_mean.getD 0
      if (0.5 : ℚ) ≤ avg_score then
        ({ st1 with prompts := kvSet st1.prompts ("prompt:segment:" ++ segment_key) candidate_prompt },
          Except.ok candidate_prompt)
      else (st1, Except.ok candidate_prompt)

/-- The dictionary `process_call_outcome` returns, one constructor per
return site; `graded_agent_optimized` is the variant carrying
`"optimized": True`. -/
inductive RouteResult where
  | learned_new_skill (data : Analysis) (segment : String)
  | graded_agent_optimized (score : ℚ) (segment : String)
  | graded_agent (score : ℚ)
  | prompt_optimized (segment : String)
  | no_action_needed
deriving DecidableEq

/-- src/main.py `process_call_outcome`.  `outcome?` is the `outcome`
argument (`none` ⇒ auto-determined from `outcomeResp`); `extraction` is the
parsed judge reply (`none` ⇒ `json.loads` raises and the error propagates);
`embedVec` is the embedding-gateway reply used when a lesson is stored;
`mutResp`/`evalResp` are threaded to `optimize_and_verify`.  Returns the key
space after the run and either the result dictionary or the propagated
exception. -/
def process_call_outcome (pyHash : String → Int) (speaker_role : String)
    (outcome? : Option String) (country industry : String)
    (outcomeResp : Option OutcomeJson) (extraction : Option Analysis)
    (embedVec : List ℚ)
    (mutResp : String → Option String) (evalResp : String → Option (Option ℚ))
    (st : Store) : Store × Except Unit RouteResult :=
  let outcome := resolved_outcome outcome? outcomeResp
  let segment_key := country ++ ":" ++ industry
  match extraction with
  | none => (st, Except.error ())
  | some analysis =>
    let scenarioC : Store × Except Unit RouteResult :=
      if outcome = "LOST_DEAL" then
        match optimize_and_verify segment_key mutResp evalResp st with
        | (st2, Except.error _) => (st2, Except.error ())
        | (st2, Except.ok _) => (st2, Except.ok (RouteResult.prompt_optimized segment_key))
      else (st, Except.ok RouteResult.no_action_needed)
    if speaker_role = "HUMAN_MANAGER" ∧ outcome = "CLOSED_DEAL" then
      if (0.8 : ℚ) < analysis.quality_score then
        let st1 := store_lesson_in_redis pyHash st analysis embedVec
        let st2 := add_test_case_from_lesson st1 analysis.objection analysis.rebuttal
        (st2, Except.ok (RouteResult.learned_new_skill analysis segment_key))
      else scenarioC
    else if speaker_role = "AI_AGENT" then
      let score := grading_score pyHash st analysis.objection analysis.rebuttal
      if outcome = "LOST_DEAL" then
        match optimize_and_verify segment_key mutResp evalResp st with
        | (st2, Except.error _) => (st2, Except.error ())
        | (st2, Except.ok _) =>
          (st2, Except.ok (RouteResult.graded_agent_optimized score segment_key))
      else (st, Except.ok (RouteResult.graded_agent score))
    else scenarioC

/-!
The vector search of src/voice-module/app/services/redis_service.py
(`RedisService.vector_search`).  A `skill:*` hash is modelled with its
decoded fields; the packed float vector is modelled as the list of
rationals it unpacks to (`none` when the hash has no vector field, and the
empty-bytes case is the empty list, which the code treats as falsy and
skips).  `connected` models `self.client is not None`.
-/

/-- One `skill:*` hash as `vector_search` reads it back. -/
structure SkillEntry where
  key : String
  trigger : Option String
  rebuttal : Option String
  vector : Option (List ℚ)
deriving DecidableEq

/-- `np.dot` on two same-length vectors. -/
def dotProduct (a b : List ℚ) : ℚ :=
  (List.zipWith (fun x y => x * y) a b).sum

/-- The square of `np.linalg.norm v`: it is zero exactly when the norm is. -/
def normSq (v : List ℚ) : ℚ :=
  dotProduct v v

/-- One entry of the `results` list built by `vector_search`.  The cosine
similarity `np.dot(q, v) / (norm q * norm v)` is carried exactly, as the
pair of its numerator `scoreDot = np.dot(q, v)` and the square
`scoreNormP = normSq q * normSq v` of its denominator: the float score of
the code is the real number `scoreDot / Real.sqrt scoreNormP`. -/
structure SearchResult where
  content : String
  key : String
  scoreDot : ℚ
  scoreNormP : ℚ
deriving DecidableEq

/-- Processing of one `skill:*` hash inside the scan loop: skip the entry
when it has no (or an empty) vector field, when the stored norm is zero, or
when `np.dot` raises on a length mismatch (the inner `except` turns that
into a skip); otherwise build the result document. -/
def entryResult (query : List ℚ) (e : SkillEntry) : Option SearchResult :=
  match e.vector with
  | none => none
  | some v =>
    if v = [] then none
    else if normSq v = 0 then none
    else if v.length ≠ query.length then none
    else some
      { content := "Objection: " ++ e.trigger.getD "" ++ "\nRebuttal: " ++ e.rebuttal.getD "",
        key := e.key,
        scoreDot := dotProduct query v,
        scoreNormP := normSq query * normSq v }

/-- The strict-total sort key of a result's cosine similarity
`d / Real.sqrt p` (for `p > 0`): its sign-carrying square `d^2 / p` with
the sign of `d`.  Comparing keys compares similarities, and the order on ℚ
is total and transitive on all inputs, which the sort lemmas need. -/
def scoreKey (d p : ℚ) : ℚ :=
  if 0 ≤ d then d ^ 2 / p else -(d ^ 2 / p)

/-- The comparison `results.sort(key=lambda x: x["score"], reverse=True)`
sorts by: `a` may precede `b` when the similarity of `b` is at most that
of `a`. -/
def resultLe (a b : SearchResult) : Bool :=
  decide (scoreKey b.scoreDot b.scoreNormP ≤ scoreKey a.scoreDot a.scoreNormP)

/-- `RedisService.vector_search`: empty when disconnected, when no
`skill:*` key exists, or when the query has zero norm; otherwise the scan
results sorted by descending similarity, truncated to `k`. -/
def vector_search (connected : Bool) (store : List SkillEntry) (query : List ℚ)
    (k : ℕ) : List SearchResult :=
  if connected = false then []
  else if store = [] then []
  else if normSq query = 0 then []
  else ((store.filterMap (entryResult query)).mergeSort resultLe).take k

/-!
Concrete fixtures used by the closed counterexample, failing-input and
witness statements below.
-/

/-- A concrete stand-in for Python's process-seeded `hash` builtin. -/
def exampleHash : String → Int := fun s => Int.ofNat s.length

/-- The empty key space. -/
def emptyStore : Store :=
  { prompts := [], testCases := [], skills := [] }

/-- A key space holding only the industry-wildcard prompt for fintech. -/
def wildcardStore : Store :=
  { prompts := [("prompt:segment:*:fintech", "Wildcard fintech prompt")],
    testCases := [], skills := [] }

/-- A key space holding only the base prompt. -/
def baseStore : Store :=
  { prompts := [("prompt:base", "Base prompt")], testCases := [], skills := [] }

/-- A key space holding one skill: objection "O" (fingerprint 1 under
`exampleHash`) with stored rebuttal "R". -/
def skillStoreO : Store :=
  { prompts := [], testCases := [],
    skills := [(Int.ofNat 1, { trigger := "O", rebuttal := "R", vector := [1] })] }

/-- An extraction whose quality score is below the 0.8 learning gate. -/
def analysisLowQ : Analysis :=
  { objection := "O", rebuttal := "R", quality_score := 0.5 }

/-- An extraction whose rebuttal equals the one `skillStoreO` stores. -/
def analysisMatch : Analysis :=
  { objection := "O", rebuttal := "R", quality_score := 0 }

/-- A mutation reply that always fails. -/
def lmNone : String → Option String := fun _ => none

/-- An evaluation reply that always fails. -/
def evNone : String → Option (Option ℚ) := fun _ => none

/-- A mutation reply that always answers with the given candidate. -/
def lmConst (c : String) : String → Option String := fun _ => some c

/-- An evaluation reply that always reports the given mean. -/
def evMean (m : ℚ) : String → Option (Option ℚ) := fun _ => some (some m)

/-! Helper lemmas shared by the claim theorems. -/

/-- A value surviving the truthiness check is not the empty string. -/
theorem truthy_ne_empty {o : Option String} {p : String} (h : truthy o = some p) :
    p ≠ "" := by
  cases o with
  | none => simp [truthy] at h
  | some s =>
    simp only [truthy] at h
    split at h
    · simp at h
    · rename_i hs
      cases h
      exact hs

/-- Reading back the key just written. -/
theorem kvGet_kvSet_self (l : List (String × String)) (k v : String) :
    kvGet (kvSet l k v) k = some v := by
  simp [kvGet, kvSet, List.find?]

/-- Seeding the test-case corpus leaves the prompt keys untouched. -/
theorem seed_testCases_prompts (st : Store) :
    (if st.testCases = [] then { st with testCases := default_test_cases } else st).prompts
      = st.prompts := by
  split <;> rfl

/-! The claim theorems. -/

/-- C2 (code bug): `determine_call_outcome` is documented to return only
"CLOSED_DEAL" or "LOST_DEAL" and to default to "LOST_DEAL" on malformed
replies, but a well-formed gateway reply carrying any other string in its
`outcome` field is returned verbatim: on `{"outcome": "IN_PROGRESS"}` the
function returns "IN_PROGRESS", a third value. -/
theorem c2_outcome_classifier_third_value :
    determine_call_outcome
        (some { outcome := some "IN_PROGRESS", confidence := none, reason := none })
        = "IN_PROGRESS"
    ∧ "IN_PROGRESS" ≠ "CLOSED_DEAL" ∧ "IN_PROGRESS" ≠ "LOST_DEAL" :=
  ⟨rfl, by decide, by decide⟩

/-- C5 (code bug): the AI grading comparison can never award 1.0.  main.py
reads the stored rebuttal through a client with `decode_responses=False`,
so `r.hget` yields bytes (or `None`) while the extracted rebuttal is a str,
and Python's `str == bytes` is always `False`: the score is 0.5 for every
store, fingerprint function and extraction — even when, as in the concrete
run below, the extracted rebuttal "R" textually equals the stored one. -/
theorem c5_grading_always_half :
    (∀ (pyHash : String → Int) (st : Store) (objection rebuttal : String),
        grading_score pyHash st objection rebuttal = 0.5)
    ∧ process_call_outcome exampleHash "AI_AGENT" (some "CLOSED_DEAL") "US" "general"
        none (some analysisMatch) [] lmNone evNone skillStoreO
      = (skillStoreO, Except.ok (RouteResult.graded_agent 0.5)) := by
  constructor
  · intro pyHash st objection rebuttal
    unfold grading_score hgetRebuttalPy
    cases skillGetRebuttal st.skills (pyHash objection) <;> rfl
  · rfl

/-- C6: when the objection/rebuttal extraction reply is not parseable as
JSON, `process_call_outcome` propagates the error: no result is returned
and the key space — skills, test cases and prompts alike — is untouched. -/
theorem c6_extraction_unparsable_aborts (pyHash : String → Int) (speaker_role : String)
    (outcome? : Option String) (country industry : String)
    (outcomeResp : Option OutcomeJson) (embedVec : List ℚ)
    (mutResp : String → Option String) (evalResp : String → Option (Option ℚ))
    (st : Store) :
    process_call_outcome pyHash speaker_role outcome? country industry outcomeResp none
        embedVec mutResp evalResp st = (st, Except.error ()) := rfl

/-- C8: segment resolution tries the exact `country:industry` key, then the
industry-only wildcard key, then the base key, then the hardcoded default
(a stored value is used only when truthy), and never returns the empty
string. -/
theorem c8_segment_resolution_precedence (st : Store) (country industry : String) :
    get_prompt_for_segment st country industry ≠ ""
    ∧ get_prompt_for_segment st country industry
      = (truthy (kvGet st.prompts ("prompt:segment:" ++ (country ++ ":" ++ industry)))).getD
          ((truthy (kvGet st.prompts ("prompt:segment:*:" ++ industry))).getD
            ((truthy (kvGet st.prompts "prompt:base")).getD
              "You are a helpful sales agent.")) := by
  unfold get_prompt_for_segment
  cases h1 : truthy (kvGet st.prompts ("prompt:segment:" ++ (country ++ ":" ++ industry))) with
  | some p => exact ⟨truthy_ne_empty h1, rfl⟩
  | none =>
    cases h2 : truthy (kvGet st.prompts ("prompt:segment:*:" ++ industry)) with
    | some p => exact ⟨truthy_ne_empty h2, rfl⟩
    | none =>
      cases h3 : truthy (kvGet st.prompts "prompt:base") with
      | some p => exact ⟨truthy_ne_empty h3, rfl⟩
      | none => exact ⟨by decide, rfl⟩

/-- C9 (counterexample): with only the industry-wildcard key set, the agent
resolves the wildcard prompt but the optimizer's step-1 fetch skips the
wildcard level and falls back to the hardcoded default — the two functions
disagree on the same store. -/
theorem c9_counterexample_wildcard_skipped :
    get_prompt_for_segment wildcardStore "US" "fintech" = "Wildcard fintech prompt"
    ∧ fetch_current_prompt wildcardStore ("US" ++ ":" ++ "fintech")
        = "You are a helpful sales agent."
    ∧ fetch_current_prompt wildcardStore ("US" ++ ":" ++ "fintech")
        ≠ get_prompt_for_segment wildcardStore "US" "fintech" := by
  refine ⟨rfl, rfl, ?_⟩
  intro h
  simp only [show fetch_current_prompt wildcardStore ("US" ++ ":" ++ "fintech")
      = "You are a helpful sales agent." from rfl,
    show get_prompt_for_segment wildcardStore "US" "fintech"
      = "Wildcard fintech prompt" from rfl] at h
  exact absurd h (by decide)

/-- C9 (amended): the optimizer's step-1 fetch and `get_prompt_for_segment`
agree whenever the industry-wildcard level is not the resolving one, i.e.
when the exact segment key holds a truthy prompt or the wildcard key does
not; the optimizer skips only that wildcard level. -/
theorem c9_amended_fetch_matches_resolution (st : Store) (country industry : String)
    (h : truthy (kvGet st.prompts ("prompt:segment:" ++ (country ++ ":" ++ industry))) ≠ none
       ∨ truthy (kvGet st.prompts ("prompt:segment:*:" ++ industry)) = none) :
    fetch_current_prompt st (country ++ ":" ++ industry)
      = get_prompt_for_segment st country industry := by
  unfold fetch_current_prompt get_prompt_for_segment
  cases h1 : truthy (kvGet st.prompts ("prompt:segment:" ++ (country ++ ":" ++ industry))) with
  | some p => rfl
  | none =>
    rcases h with h | h2
    · exact absurd h1 h
    · rw [h2]

/-- Witness for the amended C9: on a store holding only a base prompt, the
optimizer's fetch for segment "DE:fintech" and the agent's resolution for
("DE", "fintech") return the same prompt. -/
theorem c9_amended_witness :
    fetch_current_prompt baseStore ("DE" ++ ":" ++ "fintech")
      = get_prompt_for_segment baseStore "DE" "fintech" :=
  c9_amended_fetch_matches_resolution baseStore "DE" "fintech" (Or.inr rfl)

/-- C1: in `optimize_and_verify` the prompt stored under the segment key is
overwritten with the candidate exactly when the mutation and the evaluation
both succeed and the aggregate mean is at least 0.5 (0.5 itself passes); on
gate rejection, and on a gateway failure during mutation or evaluation, the
whole prompt key space — and with it the stored SegmentPrompt — is left
byte-for-byte unchanged. -/
theorem c1_optimizer_decision_gate (segment_key : String)
    (mutResp : String → Option String) (evalResp : String → Option (Option ℚ))
    (st : Store) :
    match mutResp (fetch_current_prompt st segment_key) with
    | none => (optimize_and_verify segment_key mutResp evalResp st).fst.prompts = st.prompts
    | some c =>
      match evalResp c with
      | none => (optimize_and_verify segment_key mutResp evalResp st).fst.prompts = st.prompts
      | some m =>
        if (0.5 : ℚ) ≤ m.getD 0 then
          kvGet (optimize_and_verify segment_key mutResp evalResp st).fst.prompts
              ("prompt:segment:" ++ segment_key) = some c
        else (optimize_and_verify segment_key mutResp evalResp st).fst.prompts
              = st.prompts := by
  cases hm : mutResp (fetch_current_prompt st segment_key) with
  | none => simp [optimize_and_verify, hm]
  | some c =>
    cases he : evalResp c with
    | none =>
      simp only [optimize_and_verify, hm, he]
      exact seed_testCases_prompts st
    | some m =>
      simp only [optimize_and_verify, hm, he]
      split
      · exact kvGet_kvSet_self _ _ _
      · exact seed_testCases_prompts st

/-- C3 (counterexample): a HUMAN_MANAGER call with outcome CLOSED_DEAL and
extracted quality score 0.5 does not report "prompt_optimized": the run
returns "no_action_needed". -/
theorem c3_counterexample_hm_closed_lowq :
    (process_call_outcome exampleHash "HUMAN_MANAGER" (some "CLOSED_DEAL") "US" "general"
        none (some analysisLowQ) [] lmNone evNone emptyStore).snd
      = Except.ok RouteResult.no_action_needed
    ∧ RouteResult.no_action_needed ≠ RouteResult.prompt_optimized ("US" ++ ":" ++ "general") := by
  constructor
  · norm_num [process_call_outcome, resolved_outcome, analysisLowQ]
    rw [if_neg (show ¬ ("CLOSED_DEAL" = "LOST_DEAL") by decide)]
  · decide

/-- C3 (amended): a HUMAN_MANAGER call with outcome CLOSED_DEAL and quality
score at most 0.8 triggers no optimization and reports "no_action_needed";
"prompt_optimized" is reported only when the resolved outcome is LOST_DEAL. -/
theorem c3_amended_hm_closed_lowq_no_action (pyHash : String → Int)
    (outcome? : Option String) (country industry : String)
    (outcomeResp : Option OutcomeJson) (a : Analysis) (embedVec : List ℚ)
    (mutResp : String → Option String) (evalResp : String → Option (Option ℚ))
    (st : Store)
    (hout : resolved_outcome outcome? outcomeResp = "CLOSED_DEAL")
    (hq : a.quality_score ≤ 0.8) :
    (process_call_outcome pyHash "HUMAN_MANAGER" outcome? country industry outcomeResp
        (some a) embedVec mutResp evalResp st).snd
      = Except.ok RouteResult.no_action_needed
    ∧ (process_call_outcome pyHash "HUMAN_MANAGER" outcome? country industry outcomeResp
        (some a) embedVec mutResp evalResp st).fst.prompts = st.prompts := by
  have hq2 : ¬ ((0.8 : ℚ) < a.quality_score) := not_lt.mpr hq
  simp only [process_call_outcome, hout, hq2, reduceIte]
  rw [if_neg (show ¬ ("CLOSED_DEAL" = "LOST_DEAL") by decide)]
  exact ⟨rfl, rfl⟩

/-- Witness for the amended C3 at a concrete input. -/
theorem c3_amended_witness :
    (process_call_outcome exampleHash "HUMAN_MANAGER" (some "CLOSED_DEAL") "DE" "fintech"
        none (some analysisLowQ) [] lmNone evNone baseStore).snd
      = Except.ok RouteResult.no_action_needed
    ∧ (process_call_outcome exampleHash "HUMAN_MANAGER" (some "CLOSED_DEAL") "DE" "fintech"
        none (some analysisLowQ) [] lmNone evNone baseStore).fst.prompts
      = baseStore.prompts :=
  c3_amended_hm_closed_lowq_no_action exampleHash (some "CLOSED_DEAL") "DE" "fintech"
    none analysisLowQ [] lmNone evNone baseStore rfl (by norm_num [analysisLowQ])

/-- C4: a HUMAN_MANAGER call with outcome CLOSED_DEAL and quality score at
most 0.8 (for instance 0.5) performs no write at all — the key space is
returned unchanged, so no skill, test case or prompt is stored — and the
run reports "no_action_needed". -/
theorem c4_hm_closed_lowq_is_noop (pyHash : String → Int)
    (outcome? : Option String) (country industry : String)
    (outcomeResp : Option OutcomeJson) (a : Analysis) (embedVec : List ℚ)
    (mutResp : String → Option String) (evalResp : String → Option (Option ℚ))
    (st : Store)
    (hout : resolved_outcome outcome? outcomeResp = "CLOSED_DEAL")
    (hq : a.quality_score ≤ 0.8) :
    process_call_outcome pyHash "HUMAN_MANAGER" outcome? country industry outcomeResp
        (some a) embedVec mutResp evalResp st
      = (st, Except.ok RouteResult.no_action_needed) := by
  have hq2 : ¬ ((0.8 : ℚ) < a.quality_score) := not_lt.mpr hq
  simp only [process_call_outcome, hout, hq2, reduceIte]
  rw [if_neg (show ¬ ("CLOSED_DEAL" = "LOST_DEAL") by decide)]
  rfl

/-- Witness for C4 at a concrete input with quality score 0.5. -/
theorem c4_witness :
    process_call_outcome exampleHash "HUMAN_MANAGER" (some "CLOSED_DEAL") "US" "general"
        none (some analysisLowQ) [] lmNone evNone emptyStore
      = (emptyStore, Except.ok RouteResult.no_action_needed) :=
  c4_hm_closed_lowq_is_noop exampleHash (some "CLOSED_DEAL") "US" "general" none
    analysisLowQ [] lmNone evNone emptyStore rfl (by norm_num [analysisLowQ])

/-- C10: when the resolved outcome is anything other than "LOST_DEAL", no
prompt optimization is triggered: the prompt keys come back untouched, an
AI_AGENT call returns "graded_agent" with just the score (no "optimized"
field), and every other non-learn case returns "no_action_needed". -/
theorem c10_non_lost_never_optimizes (pyHash : String → Int) (speaker_role : String)
    (outcome? : Option String) (country industry : String)
    (outcomeResp : Option OutcomeJson) (a : Analysis) (embedVec : List ℚ)
    (mutResp : String → Option String) (evalResp : String → Option (Option ℚ))
    (st : Store)
    (hout : resolved_outcome outcome? outcomeResp ≠ "LOST_DEAL") :
    (process_call_outcome pyHash speaker_role outcome? country industry outcomeResp
        (some a) embedVec mutResp evalResp st).fst.prompts = st.prompts
    ∧ (speaker_role = "AI_AGENT" →
        process_call_outcome pyHash speaker_role outcome? country industry outcomeResp
            (some a) embedVec mutResp evalResp st
          = (st, Except.ok (RouteResult.graded_agent
              (grading_score pyHash st a.objection a.rebuttal))))
    ∧ (speaker_role ≠ "AI_AGENT" →
        ¬(speaker_role = "HUMAN_MANAGER"
            ∧ resolved_outcome outcome? outcomeResp = "CLOSED_DEAL"
            ∧ (0.8 : ℚ) < a.quality_score) →
        process_call_outcome pyHash speaker_role outcome? country industry outcomeResp
            (some a) embedVec mutResp evalResp st
          = (st, Except.ok RouteResult.no_action_needed)) := by
  simp only [process_call_outcome]
  by_cases hHM : speaker_role = "HUMAN_MANAGER" ∧ resolved_outcome outcome? outcomeResp
      = "CLOSED_DEAL"
  · rw [if_pos hHM]
    by_cases hq : (0.8 : ℚ) < a.quality_score
    · rw [if_pos hq]
      refine ⟨rfl, ?_, ?_⟩
      · intro hai
        rw [hai] at hHM
        exact absurd hHM.1 (by decide)
      · intro _ hnl
        exact absurd ⟨hHM.1, hHM.2, hq⟩ hnl
    · rw [if_neg hq, if_neg hout]
      refine ⟨rfl, ?_, fun _ _ => rfl⟩
      intro hai
      rw [hai] at hHM
      exact absurd hHM.1 (by decide)
  · rw [if_neg hHM]
    by_cases hai : speaker_role = "AI_AGENT"
    · rw [if_pos hai, if_neg hout]
      exact ⟨rfl, fun _ => rfl, fun h _ => absurd hai h⟩
    · rw [if_neg hai, if_neg hout]
      exact ⟨rfl, fun h => absurd h hai, fun _ _ => rfl⟩

/-- Witness for C10: an AI_AGENT call whose outcome is "IN_PROGRESS" is
graded without optimization. -/
theorem c10_witness :
    process_call_outcome exampleHash "AI_AGENT" (some "IN_PROGRESS") "US" "general"
        none (some analysisMatch) [] lmNone evNone skillStoreO
      = (skillStoreO, Except.ok (RouteResult.graded_agent
          (grading_score exampleHash skillStoreO analysisMatch.objection
            analysisMatch.rebuttal))) :=
  (c10_non_lost_never_optimizes exampleHash "AI_AGENT" (some "IN_PROGRESS") "US" "general"
      none analysisMatch [] lmNone evNone skillStoreO (by decide)).2.1 rfl

/-! Lemmas on the vector-search embedding, leading to C7. -/

/-- Sum-of-squares is nonnegative. -/
theorem normSq_nonneg (v : List ℚ) : 0 ≤ normSq v := by
  induction v with
  | nil => norm_num [normSq, dotProduct]
  | cons x v ih =>
    have h : normSq (x :: v) = x * x + normSq v := rfl
    rw [h]
    exact add_nonneg (mul_self_nonneg x) ih

/-- The sign-carrying square is monotone on ℝ: comparing the sign-squares
of two reals compares the reals. -/
theorem sqSgn_le_iff {x y : ℝ} :
    (if 0 ≤ x then x ^ 2 else -(x ^ 2)) ≤ (if 0 ≤ y then y ^ 2 else -(y ^ 2)) ↔ x ≤ y := by
  rcases le_or_lt 0 x with hx | hx <;> rcases le_or_lt 0 y with hy | hy
  · rw [if_pos hx, if_pos hy]
    exact pow_le_pow_iff_left₀ hx hy two_ne_zero
  · rw [if_pos hx, if_neg (not_le.mpr hy)]
    have hy2 : 0 < y ^ 2 := by
      rw [show y ^ 2 = (-y) ^ 2 from (neg_sq y).symm]
      exact pow_pos (neg_pos.mpr hy) 2
    exact iff_of_false (not_le.mpr (by nlinarith [sq_nonneg x]))
      (not_le.mpr (lt_of_lt_of_le hy hx))
  · rw [if_neg (not_le.mpr hx), if_pos hy]
    exact iff_of_true (by nlinarith [sq_nonneg x, sq_nonneg y])
      (le_of_lt (lt_of_lt_of_le hx hy))
  · rw [if_neg (not_le.mpr hx), if_neg (not_le.mpr hy), neg_le_neg_iff,
      show y ^ 2 = (-y) ^ 2 from (neg_sq y).symm,
      show x ^ 2 = (-x) ^ 2 from (neg_sq x).symm,
      pow_le_pow_iff_left₀ (neg_nonneg.mpr hy.le) (neg_nonneg.mpr hx.le) two_ne_zero]
    exact neg_le_neg_iff

/-- Casting the rational sort key to ℝ gives the sign-carrying square of
the cosine similarity `d / √p`. -/
theorem scoreKey_cast (d p : ℚ) (hp : 0 < p) :
    ((scoreKey d p : ℚ) : ℝ)
      = (if 0 ≤ ((d : ℝ) / Real.sqrt (p : ℝ)) then ((d : ℝ) / Real.sqrt (p : ℝ)) ^ 2
         else -(((d : ℝ) / Real.sqrt (p : ℝ)) ^ 2)) := by
  have hpR : (0 : ℝ) < (p : ℝ) := by exact_mod_cast hp
  have hps : (0 : ℝ) < Real.sqrt (p : ℝ) := Real.sqrt_pos.mpr hpR
  have hx : 0 ≤ (d : ℝ) / Real.sqrt (p : ℝ) ↔ 0 ≤ (d : ℝ) := by
    rw [le_div_iff₀ hps, zero_mul]
  have hsq : ((d : ℝ) / Real.sqrt (p : ℝ)) ^ 2 = (d : ℝ) ^ 2 / (p : ℝ) := by
    rw [div_pow, Real.sq_sqrt hpR.le]
  unfold scoreKey
  by_cases hd : (0 : ℚ) ≤ d
  · rw [if_pos hd, if_pos (hx.mpr (by exact_mod_cast hd)), hsq]
    push_cast
    ring
  · rw [if_neg hd, if_neg (fun hc => hd (by exact_mod_cast hx.mp hc)), hsq]
    push_cast
    ring

/-- Comparing sort keys of results with positive norm products compares
their real cosine similarities. -/
theorem scoreKey_le_iff {d1 p1 d2 p2 : ℚ} (hp1 : 0 < p1) (hp2 : 0 < p2) :
    scoreKey d1 p1 ≤ scoreKey d2 p2
      ↔ (d1 : ℝ) / Real.sqrt (p1 : ℝ) ≤ (d2 : ℝ) / Real.sqrt (p2 : ℝ) := by
  rw [← @Rat.cast_le (scoreKey d1 p1) (scoreKey d2 p2) ℝ _,
    scoreKey_cast d1 p1 hp1, scoreKey_cast d2 p2 hp2]
  exact sqSgn_le_iff

/-- The sort comparison is transitive on all results. -/
theorem resultLe_trans (a b c : SearchResult) (hab : resultLe a b = true)
    (hbc : resultLe b c = true) : resultLe a c = true := by
  simp only [resultLe, decide_eq_true_iff] at hab hbc ⊢
  exact le_trans hbc hab

/-- The sort comparison is total on all results. -/
theorem resultLe_total (a b : SearchResult) : (resultLe a b || resultLe b a) = true := by
  simp only [resultLe, Bool.or_eq_true, decide_eq_true_iff]
  exact le_total _ _

/-- Inversion of the per-entry scan step: a produced result remembers its
entry's key, a stored vector of nonzero norm, and the norm product. -/
theorem entryResult_eq_some {query : List ℚ} {e : SkillEntry} {r : SearchResult}
    (h : entryResult query e = some r) :
    r.key = e.key ∧ ∃ v, e.vector = some v ∧ normSq v ≠ 0
      ∧ r.scoreNormP = normSq query * normSq v := by
  unfold entryResult at h
  cases hv : e.vector with
  | none => rw [hv] at h; exact absurd h (by simp)
  | some v =>
    rw [hv] at h
    dsimp only at h
    split_ifs at h with h1 h2 h3
    injection h with h
    subst h
    exact ⟨rfl, v, rfl, h2, rfl⟩

/-- Disconnected search returns the empty list. -/
theorem vector_search_false (store : List SkillEntry) (query : List ℚ) (k : ℕ) :
    vector_search false store query k = [] := rfl

/-- Searching an empty store returns the empty list. -/
theorem vector_search_nil (connected : Bool) (query : List ℚ) (k : ℕ) :
    vector_search connected [] query k = [] := by
  cases connected <;> rfl

/-- A zero-norm query returns the empty list. -/
theorem vector_search_zero_query (connected : Bool) (store : List SkillEntry)
    (query : List ℚ) (k : ℕ) (hq : normSq query = 0) :
    vector_search connected store query k = [] := by
  unfold vector_search
  cases connected
  · rw [if_pos rfl]
  · rw [if_neg (by decide : ¬ (true = false))]
    by_cases hs : store = []
    · rw [if_pos hs]
    · rw [if_neg hs, if_pos hq]

/-- In the remaining case the search is the sorted, truncated scan. -/
theorem vector_search_main (store : List SkillEntry) (query : List ℚ) (k : ℕ)
    (hs : store ≠ []) (hq : normSq query ≠ 0) :
    vector_search true store query k
      = ((store.filterMap (entryResult query)).mergeSort resultLe).take k := by
  unfold vector_search
  rw [if_neg (by decide : ¬ (true = false)), if_neg hs, if_neg hq]

/-- The result list never exceeds `k` entries. -/
theorem vector_search_length_le (connected : Bool) (store : List SkillEntry)
    (query : List ℚ) (k : ℕ) :
    (vector_search connected store query k).length ≤ k := by
  cases connected
  · rw [vector_search_false]; exact Nat.zero_le k
  · by_cases hs : store = []
    · subst hs; rw [vector_search_nil]; exact Nat.zero_le k
    · by_cases hq : normSq query = 0
      · rw [vector_search_zero_query _ _ _ _ hq]; exact Nat.zero_le k
      · rw [vector_search_main _ _ _ hs hq]; exact List.length_take_le k _

/-- Every returned result comes from a store entry whose vector has nonzero
norm, under a query of nonzero norm. -/
theorem mem_vector_search {connected : Bool} {store : List SkillEntry}
    {query : List ℚ} {k : ℕ} {r : SearchResult}
    (hr : r ∈ vector_search connected store query k) :
    normSq query ≠ 0 ∧ ∃ e ∈ store, r.key = e.key
      ∧ ∃ v, e.vector = some v ∧ normSq v ≠ 0
        ∧ r.scoreNormP = normSq query * normSq v := by
  cases connected
  · rw [vector_search_false] at hr; exact absurd hr (List.not_mem_nil r)
  · by_cases hs : store = []
    · subst hs; rw [vector_search_nil] at hr; exact absurd hr (List.not_mem_nil r)
    · by_cases hq : normSq query = 0
      · rw [vector_search_zero_query _ _ _ _ hq] at hr
        exact absurd hr (List.not_mem_nil r)
      · rw [vector_search_main _ _ _ hs hq] at hr
        have hr2 := List.mem_mergeSort.mp (List.mem_of_mem_take hr)
        obtain ⟨e, he, hres⟩ := List.mem_filterMap.mp hr2
        obtain ⟨hkey, v, hv, hnv, hnp⟩ := entryResult_eq_some hres
        exact ⟨hq, e, he, hkey, v, hv, hnv, hnp⟩

/-- The norm product carried by a returned result is positive. -/
theorem scoreNormP_pos_of_mem {connected : Bool} {store : List SkillEntry}
    {query : List ℚ} {k : ℕ} {r : SearchResult}
    (hr : r ∈ vector_search connected store query k) : 0 < r.scoreNormP := by
  obtain ⟨hq, e, he, hk, v, hv, hnv, hnp⟩ := mem_vector_search hr
  rw [hnp]
  exact mul_pos (lt_of_le_of_ne (normSq_nonneg query) (Ne.symm hq))
    (lt_of_le_of_ne (normSq_nonneg v) (Ne.symm hnv))

/-- The result list is sorted by descending real cosine similarity. -/
theorem vector_search_sorted (connected : Bool) (store : List SkillEntry)
    (query : List ℚ) (k : ℕ) :
    List.Pairwise (fun a b =>
      (b.scoreDot : ℝ) / Real.sqrt (b.scoreNormP : ℝ)
        ≤ (a.scoreDot : ℝ) / Real.sqrt (a.scoreNormP : ℝ))
      (vector_search connected store query k) := by
  cases connected
  · rw [vector_search_false]; exact List.Pairwise.nil
  · by_cases hs : store = []
    · subst hs; rw [vector_search_nil]; exact List.Pairwise.nil
    · by_cases hq : normSq query = 0
      · rw [vector_search_zero_query _ _ _ _ hq]; exact List.Pairwise.nil
      · have hsorted : List.Pairwise (fun a b => resultLe a b = true)
            ((store.filterMap (entryResult query)).mergeSort resultLe) :=
          List.sorted_mergeSort resultLe_trans resultLe_total _
        have htake : List.Pairwise (fun a b => resultLe a b = true)
            (vector_search true store query k) := by
          rw [vector_search_main _ _ _ hs hq]
          exact List.Pairwise.sublist (List.take_sublist k _) hsorted
        refine htake.imp_of_mem ?_
        intro a b ha hb hab
        simp only [resultLe, decide_eq_true_iff] at hab
        exact (scoreKey_le_iff (scoreNormP_pos_of_mem hb)
          (scoreNormP_pos_of_mem ha)).mp hab

/-- C7: `vector_search` returns at most `k` results, sorted in descending
order of real cosine similarity; it returns the empty list — raising no
exception — when the store is unreachable, when the store is empty, or when
the query has zero norm; and every returned result comes from a stored
entry whose vector has nonzero norm (zero-norm entries, and all entries
under a zero-norm query, are excluded). -/
theorem c7_vector_search_contract (connected : Bool) (store : List SkillEntry)
    (query : List ℚ) (k : ℕ) :
    (vector_search connected store query k).length ≤ k
    ∧ List.Pairwise (fun a b =>
        (b.scoreDot : ℝ) / Real.sqrt (b.scoreNormP : ℝ)
          ≤ (a.scoreDot : ℝ) / Real.sqrt (a.scoreNormP : ℝ))
        (vector_search connected store query k)
    ∧ vector_search false store query k = []
    ∧ vector_search connected [] query k = []
    ∧ (normSq query = 0 → vector_search connected store query k = [])
    ∧ (∀ r ∈ vector_search connected store query k,
        normSq query ≠ 0 ∧ ∃ e ∈ store, r.key = e.key
          ∧ ∃ v, e.vector = some v ∧ normSq v ≠ 0
            ∧ r.scoreNormP = normSq query * normSq v) :=
  ⟨vector_search_length_le connected store query k,
    vector_search_sorted connected store query k,
    vector_search_false store query k,
    vector_search_nil connected query k,
    fun hq => vector_search_zero_query connected store query k hq,
    fun _ hr => mem_vector_search hr⟩

end WnbHack
